import Mathlib

/-!
Shallow embedding of the Google Calendar MCP server (`src/main.py`).

Remote interactions (the Nango vault fetch, the Google token refresh, and
the calendar-provider calls) are modelled by a `World` record that fixes
the response of each remote endpoint; every embedded operation returns its
result together with the list of remote calls it performed, in order.
Python exceptions are modelled with `Except Fault`; Python string/None
truthiness is modelled by `truthy`.
-/

namespace GCal

/-- Python truthiness of an optional string: `None` and `""` are falsy. -/
def truthy : Option String → Bool
  | none => false
  | some s => !(s == "")

/-- One remote interaction performed by the server, in the order issued. -/
inductive RemoteCall where
  | vaultFetch
  | tokenRefresh
  | calendarListPage
  | eventsList
  | eventInsert
  | eventDelete
  deriving DecidableEq, Repr

/-- A raised Python exception: `httpError` is `googleapiclient.errors.HttpError`
(with `resp.status` when the `resp` attribute is present), `exc` is any other
exception (`ValueError`, `requests.HTTPError`, refresh failures, ...),
carrying its `str(...)` rendering. -/
inductive Fault where
  | httpError (status : Option Nat) (msg : String)
  | exc (msg : String)
  deriving DecidableEq, Repr

/-- `str(e)` of a fault, as used by the tool-level failure envelopes. -/
def Fault.toMessage : Fault → String
  | .httpError _ m => m
  | .exc m => m

/-- The nested `credentials` payload of the Nango response (`main.py` line 75),
each field as `.get(...)` would see it. -/
structure CredentialsData where
  access_token : Option String := none
  refresh_token : Option String := none
  client_id : Option String := none
  client_secret : Option String := none
  deriving DecidableEq, Repr

/-- The JSON body returned by the Nango connection endpoint. -/
structure NangoResponse where
  credentials : Option CredentialsData := none
  deriving DecidableEq, Repr

/-- One calendar item of a `calendarList().list` page (field-filtered). -/
structure CalendarJson where
  id : String
  summary : Option String := none
  deriving DecidableEq, Repr

/-- One `calendarList().list` response page: its `items` (default `[]`) and
its `nextPageToken` (absent on the last page). -/
structure CalendarPage where
  items : List CalendarJson := []
  nextPageToken : Option String := none
  deriving DecidableEq, Repr

/-- A provider `start`/`end` object: date-only or dateTime with timezone. -/
structure StartEnd where
  date : Option String := none
  dateTime : Option String := none
  timeZone : Option String := none
  deriving DecidableEq, Repr

/-- A raw provider event item, fields as `.get(...)` sees them. -/
structure EventJson where
  id : Option String := none
  summary : Option String := none
  description : Option String := none
  start : Option StartEnd := none
  stop : Option StartEnd := none
  location : Option String := none
  status : Option String := none
  created : Option String := none
  updated : Option String := none
  htmlLink : Option String := none
  deriving DecidableEq, Repr

/-- The environment of one invocation: configuration values and the response
each remote endpoint would give.  `credsExpired` is the (clock-dependent)
`expired` property of the constructed `google.oauth2` credential. -/
structure World where
  nangoBaseUrl : Option String := none
  nangoSecretKey : Option String := none
  vaultResult : Except Fault NangoResponse := .error (.exc "vault unreachable")
  credsExpired : Bool := false
  refreshResult : Except Fault Unit := .ok ()
  calendarPages : List (Except Fault CalendarPage) := []
  eventsListResult : Except Fault (List EventJson) := .ok []
  insertResult : Except Fault EventJson := .error (.exc "insert unreachable")
  deleteResult : Except Fault Unit := .ok ()
  nowStr : String := ""

/-- `GoogleCalendarAuth.get_connection_credentials` (`main.py` 47-65):
raises `ValueError` before any remote call when the vault base URL or secret
key is unset/empty; otherwise performs the vault GET (whose
`raise_for_status` + `json()` outcome is `World.vaultResult`). -/
def get_connection_credentials (w : World) :
    Except Fault NangoResponse × List RemoteCall :=
  if !truthy w.nangoBaseUrl || !truthy w.nangoSecretKey then
    (.error (.exc "NANGO_NANGO_BASE_URL and NANGO_NANGO_SECRET_KEY must be set"), [])
  else
    (w.vaultResult, [.vaultFetch])

/-- The `google.oauth2.credentials.Credentials` object as constructed at
`main.py` 78-85; `expired` models the clock-dependent property of the library. -/
structure Creds where
  token : Option String
  refresh_token : Option String
  token_uri : String
  expired : Bool
  deriving DecidableEq, Repr

/-- `Credentials.valid` of the google-auth library: a token is present and
the credential is not expired. -/
def Creds.valid (c : Creds) : Bool := c.token.isSome && !c.expired

/-- `GoogleCalendarAuth.authenticate_google_calendar` (`main.py` 68-100):
fetch the Nango credentials, build a `Credentials` object, refresh when
invalid-but-refreshable, raise when invalid and unrefreshable, then build
the service (modelled as `Unit`: provider responses live in the `World`).
The outer `except` logs and re-raises, so faults propagate unchanged. -/
def authenticate (w : World) : Except Fault Unit × List RemoteCall :=
  match get_connection_credentials w with
  | (.error f, tr) => (.error f, tr)
  | (.ok resp, tr) =>
    let cd := resp.credentials.getD {}
    let creds : Creds :=
      { token := cd.access_token
        refresh_token := cd.refresh_token
        token_uri := "https://oauth2.googleapis.com/token"
        expired := w.credsExpired }
    if !creds.valid then
      if creds.expired && truthy creds.refresh_token then
        match w.refreshResult with
        | .ok _ => (.ok (), tr ++ [.tokenRefresh])
        | .error f => (.error f, tr ++ [.tokenRefresh])
      else
        (.error (.exc "Invalid credentials and no refresh token available"), tr)
    else
      (.ok (), tr)

/-- The pagination loop of `GoogleCalendarTools.get_all_calendars`
(`main.py` 111-128): the `execute()` outcome of the n-th iteration is the n-th
entry of the page list; items accumulate in order; the loop requests a next
page exactly when the previous response carried a truthy `nextPageToken`.
An `HttpError` from `execute()` propagates (re-raised at 132-137). -/
def get_all_calendars_loop :
    List (Except Fault CalendarPage) →
    Except Fault (List CalendarJson) × List RemoteCall
  | [] => (.ok [], [])
  | r :: rest =>
    match r with
    | .error f => (.error f, [.calendarListPage])
    | .ok p =>
      if truthy p.nextPageToken then
        let (res, tr) := get_all_calendars_loop rest
        (res.map (fun more => p.items ++ more), .calendarListPage :: tr)
      else
        (.ok p.items, [.calendarListPage])

/-- `GoogleCalendarTools.get_all_calendars` (`main.py` 106-137):
authenticate, then run the pagination loop; all faults propagate to the
caller (the tool layer). -/
def get_all_calendars (w : World) :
    Except Fault (List CalendarJson) × List RemoteCall :=
  match authenticate w with
  | (.error f, tr) => (.error f, tr)
  | (.ok _, tr) =>
    let (res, tr2) := get_all_calendars_loop w.calendarPages
    (res, tr ++ tr2)

/-- The per-event formatting of `get_calendar_events` (`main.py` 164-178):
each raw item becomes one formatted record, `summary` defaulting to
`No Title`, with the requested `calendar_id` attached. -/
structure FormattedEvent where
  id : Option String
  summary : String
  description : String
  start : StartEnd
  stop : StartEnd
  location : String
  status : String
  created : Option String
  updated : Option String
  html_link : Option String
  calendar_id : String
  deriving DecidableEq, Repr

/-- `formatted_event` construction (`main.py` 165-177). -/
def formatEvent (calendar_id : String) (e : EventJson) : FormattedEvent :=
  { id := e.id
    summary := e.summary.getD "No Title"
    description := e.description.getD ""
    start := e.start.getD {}
    stop := e.stop.getD {}
    location := e.location.getD ""
    status := e.status.getD ""
    created := e.created
    updated := e.updated
    html_link := e.htmlLink
    calendar_id := calendar_id }

/-- The dict returned by `get_calendar_events` (`main.py` 180-203): the
success branch carries `events`/`total_events`, the failure branches carry
`error`; all branches carry `calendar_id` and `message`. -/
structure EventsEnvelope where
  success : Bool
  events : Option (List FormattedEvent) := none
  total_events : Option Nat := none
  calendar_id : String
  message : String
  error : Option String := none
  deriving DecidableEq, Repr

/-- The two `except` branches of `get_calendar_events` (`main.py` 188-203):
`HttpError` yields `http_error_<status>` (or `http_error_unknown` without a
`resp`), any other exception yields `unexpected_error`. -/
def events_fail_envelope (calendar_id : String) (f : Fault) : EventsEnvelope :=
  match f with
  | .httpError st msg =>
    { success := false
      message := s!"HTTP error occurred: {msg}"
      error := some (match st with
        | some s => s!"http_error_{s}"
        | none => "http_error_unknown")
      calendar_id := calendar_id }
  | .exc msg =>
    { success := false
      message := s!"Unexpected error occurred: {msg}"
      error := some "unexpected_error"
      calendar_id := calendar_id }

/-- The `params` dict passed to `events().list` (`main.py` 147-157). -/
structure EventsListParams where
  calendarId : String
  maxResults : Nat
  singleEvents : Bool := true
  orderBy : String := "startTime"
  timeMin : Option String := none
  timeMax : Option String := none
  deriving DecidableEq, Repr

/-- `GoogleCalendarTools.get_calendar_events` (`main.py` 140-203):
authenticate, issue the events-list call (params
`calendarId/maxResults/singleEvents/orderBy` plus the optional
`timeMin`/`timeMax`), format the items, and wrap; every exception raised
inside the `try` is converted to a failure envelope, never re-raised. -/
def get_calendar_events (w : World) (calendar_id : String)
    (time_min time_max : Option String) (max_results : Nat) :
    EventsEnvelope × List RemoteCall :=
  match authenticate w with
  | (.error f, tr) => (events_fail_envelope calendar_id f, tr)
  | (.ok _, tr) =>
    let _params : EventsListParams :=
      { calendarId := calendar_id
        maxResults := max_results
        timeMin := time_min
        timeMax := time_max }
    match w.eventsListResult with
    | .error f => (events_fail_envelope calendar_id f, tr ++ [.eventsList])
    | .ok events =>
      let formatted := events.map (formatEvent calendar_id)
      let n := formatted.length
      ({ success := true
         events := some formatted
         total_events := some n
         calendar_id := calendar_id
         message := s!"Retrieved {n} events successfully" }, tr ++ [.eventsList])

/-- The provider event body built by `create_meet_event` (`main.py`
217-242): timezone-qualified start/end, optional attendees (only when the
list is truthy), and the conference request keyed by the current
timestamp. -/
structure EventBody where
  summary : String
  description : String
  startDateTime : String
  startTimeZone : String
  endDateTime : String
  endTimeZone : String
  attendees : Option (List String) := none
  conferenceRequestId : String
  deriving DecidableEq, Repr

/-- The keyword arguments of the `events().insert` call (`main.py`
244-249). -/
structure EventsInsertParams where
  calendarId : String
  conferenceDataVersion : Nat := 1
  sendUpdates : String := "all"
  deriving DecidableEq, Repr

/-- `GoogleCalendarTools.create_meet_event` (`main.py` 206-258):
authenticate FIRST (line 212), validate the summary only afterwards (line
214), build the body, insert; any exception in the `try` (including the
authentication failure and the `ValueError` of an empty summary) is caught
and collapsed to `none`. -/
def create_meet_event (w : World) (summary start_datetime end_datetime : String)
    (description : String) (attendees : Option (List String))
    (timezone calendar_id : String) :
    Option EventJson × List RemoteCall :=
  match authenticate w with
  | (.error _, tr) => (none, tr)
  | (.ok _, tr) =>
    if summary == "" then
      (none, tr)
    else
      let _body : EventBody :=
        { summary := summary
          description := description
          startDateTime := start_datetime
          startTimeZone := timezone
          endDateTime := end_datetime
          endTimeZone := timezone
          attendees := match attendees with
            | some l => if l.isEmpty then none else some l
            | none => none
          conferenceRequestId := "meet-" ++ w.nowStr }
      let _insertParams : EventsInsertParams := { calendarId := calendar_id }
      match w.insertResult with
      | .ok e => (some e, tr ++ [.eventInsert])
      | .error _ => (none, tr ++ [.eventInsert])

/-- The dict returned by `cancel_calendar_event` (`main.py` 273-311): the
success branch carries `calendar_id`; NONE of the failure branches does
(they carry only `event_id`, `error`, `message`). -/
structure CancelEnvelope where
  success : Bool
  message : String
  event_id : String
  calendar_id : Option String := none
  error : Option String := none
  deriving DecidableEq, Repr

/-- The `except` branches of `cancel_calendar_event` (`main.py` 280-311):
with a `resp`, 404 maps to `event_not_found` and 403 to
`permission_denied`; any other `HttpError` maps to `http_error`; any other
exception to `unexpected_error`.  No branch sets `calendar_id`. -/
def cancel_fail_envelope (event_id : String) (f : Fault) : CancelEnvelope :=
  match f with
  | .httpError st msg =>
    if st = some 404 then
      { success := false
        message := s!"Event not found: {event_id}"
        error := some "event_not_found"
        event_id := event_id }
    else if st = some 403 then
      { success := false
        message := "Insufficient permissions to cancel this event"
        error := some "permission_denied"
        event_id := event_id }
    else
      { success := false
        message := s!"HTTP error occurred: {msg}"
        error := some "http_error"
        event_id := event_id }
  | .exc msg =>
    { success := false
      message := s!"Unexpected error occurred: {msg}"
      error := some "unexpected_error"
      event_id := event_id }

/-- `GoogleCalendarTools.cancel_calendar_event` (`main.py` 261-311):
authenticate, issue the delete, and return an envelope in every case;
exceptions never escape this function. -/
def cancel_calendar_event (w : World) (calendar_id event_id : String) :
    CancelEnvelope × List RemoteCall :=
  match authenticate w with
  | (.error f, tr) => (cancel_fail_envelope event_id f, tr)
  | (.ok _, tr) =>
    match w.deleteResult with
    | .ok _ =>
      ({ success := true
         message := s!"Event {event_id} successfully cancelled"
         event_id := event_id
         calendar_id := some calendar_id }, tr ++ [.eventDelete])
    | .error f => (cancel_fail_envelope event_id f, tr ++ [.eventDelete])

/-! ## The tool layer

Each `@mcp.tool()` wrapper returns `json.dumps` of a dict; we model the
dict as a small JSON value `J` (serialization itself is irrelevant to the
claims, the field structure is what the callers see). -/

/-- A JSON value: the dict handed to `json.dumps` by a tool. -/
inductive J where
  | str (s : String)
  | num (n : Int)
  | bool (b : Bool)
  | null
  | arr (xs : List J)
  | obj (fields : List (String × J))

/-- Whether a JSON object carries a field of the given key. -/
def J.hasField : J → String → Bool
  | .obj fields, k => fields.any (fun p => p.1 == k)
  | _, _ => false

/-- Look up a field of a JSON object. -/
def J.lookupField : J → String → Option J
  | .obj fields, k => (fields.find? (fun p => p.1 == k)).map (fun p => p.2)
  | _, _ => none

/-- A calendar item as it appears in the JSON output of the tool. -/
def CalendarJson.toJ (c : CalendarJson) : J :=
  .obj [("id", .str c.id),
        ("summary", match c.summary with | some s => .str s | none => .null)]

/-- The `get_all_calendars` tool (`main.py` 316-336): wraps the client
result in `{success:true, calendars, total_calendars, message}`, and any
exception propagated by the client (Broker auth faults included) in
`{success:false, error: str(e), message}`.  The function is total: no
fault crosses the tool boundary. -/
def get_all_calendars_tool (w : World) : J :=
  match (get_all_calendars w).1 with
  | .ok calendars =>
    let n : Int := calendars.length
    .obj [("success", .bool true),
          ("calendars", .arr (calendars.map CalendarJson.toJ)),
          ("total_calendars", .num n),
          ("message", .str s!"Retrieved {n} calendars successfully")]
  | .error e =>
    .obj [("success", .bool false),
          ("error", .str e.toMessage),
          ("message", .str "Failed to retrieve calendars")]

/-- The JSON rendering of a cancel envelope: field present exactly when the
corresponding dict branch of `cancel_calendar_event` sets it. -/
def CancelEnvelope.toJ (r : CancelEnvelope) : J :=
  .obj ([("success", .bool r.success), ("message", .str r.message)] ++
    (match r.error with | some e => [("error", .str e)] | none => []) ++
    [("event_id", .str r.event_id)] ++
    (match r.calendar_id with | some c => [("calendar_id", .str c)] | none => []))

/-- The `cancel_calendar_event` tool (`main.py` 415-436): the wrapped
client operation already returns an envelope for every outcome, so the
own `except` of the tool never fires; the function is total. -/
def cancel_calendar_event_tool (w : World) (calendar_id event_id : String) : J :=
  ((cancel_calendar_event w calendar_id event_id).1).toJ

/-! ## The derived time-window tool `get_today_events` -/

/-- A Python naive `datetime` value, to microsecond precision. -/
structure PyDateTime where
  year : Nat
  month : Nat
  day : Nat
  hour : Nat
  minute : Nat
  second : Nat
  microsecond : Nat
  deriving DecidableEq, Repr

/-- Left-pad a number with zeros to the given width. -/
def pad (width n : Nat) : String :=
  let s := toString n
  String.mk (List.replicate (width - s.length) '0') ++ s

/-- Python `datetime.isoformat()`: the fractional part is printed (to six
digits) only when `microsecond` is nonzero. -/
def PyDateTime.isoformat (d : PyDateTime) : String :=
  pad 4 d.year ++ "-" ++ pad 2 d.month ++ "-" ++ pad 2 d.day ++ "T" ++
  pad 2 d.hour ++ ":" ++ pad 2 d.minute ++ ":" ++ pad 2 d.second ++
  (if d.microsecond = 0 then "" else "." ++ pad 6 d.microsecond)

/-- `today.replace(hour=0, minute=0, second=0, microsecond=0)`
(`main.py` 449). -/
def todayTimeMin (now : PyDateTime) : PyDateTime :=
  { now with hour := 0, minute := 0, second := 0, microsecond := 0 }

/-- `today.replace(hour=23, minute=59, second=59, microsecond=999999)`
(`main.py` 450). -/
def todayTimeMax (now : PyDateTime) : PyDateTime :=
  { now with hour := 23, minute := 59, second := 59, microsecond := 999999 }

/-- The `time_min` string computed by `get_today_events` (`main.py` 449). -/
def get_today_events_time_min (now : PyDateTime) : String :=
  (todayTimeMin now).isoformat ++ "Z"

/-- The `time_max` string computed by `get_today_events` (`main.py` 450). -/
def get_today_events_time_max (now : PyDateTime) : String :=
  (todayTimeMax now).isoformat ++ "Z"

/-- The `get_today_events` tool (`main.py` 439-463): compute the day
window from `datetime.now()` (passed here explicitly) and delegate to
`get_calendar_events` with `max_results = 50`. -/
def get_today_events (w : World) (now : PyDateTime) (calendar_id : String) :
    EventsEnvelope × List RemoteCall :=
  get_calendar_events w calendar_id
    (some (get_today_events_time_min now))
    (some (get_today_events_time_max now)) 50

/-! ## Process startup -/

/-- Outcome of module import: either the process starts serving tools or
it dies with the raised `ValueError`. -/
inductive StartupResult where
  | started
  | failed (msg : String)
  deriving DecidableEq, Repr

/-- The module-level startup checks (`main.py` 35-41): only
`NANGO_CONNECTION_ID` and `NANGO_INTEGRATION_ID` are verified at import
time; the vault base URL and secret key are NOT consulted here. -/
def startup_check (connection_id integration_id : Option String) : StartupResult :=
  if !truthy connection_id then
    .failed "NANGO_CONNECTION_ID environment variable is required"
  else if !truthy integration_id then
    .failed "NANGO_INTEGRATION_ID environment variable is required"
  else
    .started

/-! ## Concrete environments used by witnesses and counterexamples -/

/-- A world where the vault configuration is present and authentication
succeeds with a valid (non-expired) token. -/
def okWorld : World :=
  { nangoBaseUrl := some "https://vault.example"
    nangoSecretKey := some "sk-123"
    vaultResult := .ok { credentials := some { access_token := some "tok" } } }

/-- A world with no vault configuration at all: every authentication
attempt raises the configuration `ValueError`. -/
def noConfigWorld : World := {}

/-- A vault credentials payload carrying both tokens. -/
def refreshableCreds : CredentialsData :=
  { access_token := some "tok", refresh_token := some "rt" }

/-- A world whose vault payload yields an expired credential that carries a
refresh token. -/
def expiredRefreshableWorld : World :=
  { nangoBaseUrl := some "https://vault.example"
    nangoSecretKey := some "sk-123"
    vaultResult := .ok { credentials := some refreshableCreds }
    credsExpired := true }

/-- A world whose vault payload yields an expired credential without a
refresh token. -/
def expiredUnrefreshableWorld : World :=
  { nangoBaseUrl := some "https://vault.example"
    nangoSecretKey := some "sk-123"
    vaultResult := .ok { credentials := some { access_token := some "tok" } }
    credsExpired := true }

/-- Three simulated calendar-list pages: the first two non-empty and
carrying a continuation token, the last one empty with no token. -/
def pages3 : List CalendarPage :=
  [{ items := [{ id := "cal-a", summary := some "Personal" }],
     nextPageToken := some "t1" },
   { items := [{ id := "cal-b" }, { id := "cal-c", summary := some "Team" }],
     nextPageToken := some "t2" },
   { items := [], nextPageToken := none }]

/-- A world serving `pages3` to the calendar-list pagination loop. -/
def pagesWorld : World := { okWorld with calendarPages := pages3.map .ok }

/-- A world whose events-list call fails with a provider HTTP 500. -/
def events500World : World :=
  { okWorld with eventsListResult := .error (.httpError (some 500) "backend error") }

/-- A world whose events-list call fails with a non-HTTP exception. -/
def eventsExcWorld : World :=
  { okWorld with eventsListResult := .error (.exc "boom") }

/-- Two provider events, the first lacking a title. -/
def twoEvents : List EventJson :=
  [{ id := some "e1" }, { id := some "e2", summary := some "Standup" }]

/-- A world whose provider returns `twoEvents`. -/
def twoEventsWorld : World :=
  { okWorld with eventsListResult := .ok twoEvents }

/-! ## Helper lemmas about the authentication layer -/

/-- The trace of `authenticate` is one of three shapes: nothing (missing
vault configuration), the vault fetch alone, or the vault fetch followed
by the token refresh. -/
lemma authenticate_trace_cases (w : World) :
    (authenticate w).2 = [] ∨ (authenticate w).2 = [RemoteCall.vaultFetch] ∨
      (authenticate w).2 = [RemoteCall.vaultFetch, RemoteCall.tokenRefresh] := by
  unfold authenticate get_connection_credentials
  by_cases hcfg : (!truthy w.nangoBaseUrl || !truthy w.nangoSecretKey) = true
  · simp [hcfg]
  · rw [if_neg hcfg]
    cases hv : w.vaultResult with
    | error f => simp
    | ok resp =>
      simp only
      split
      · split
        · cases hr : w.refreshResult <;> simp
        · simp
      · simp

/-- Every remote call issued by `authenticate` is the vault fetch or the
token refresh: authentication never touches the calendar provider. -/
lemma authenticate_trace_sub (w : World) :
    ∀ c ∈ (authenticate w).2, c = RemoteCall.vaultFetch ∨ c = RemoteCall.tokenRefresh := by
  rcases authenticate_trace_cases w with h | h | h <;> rw [h] <;> intro c hc <;>
    simp_all

/-- When the vault configuration is present, the trace of `authenticate`
starts with the vault fetch. -/
lemma authenticate_trace_vault_cases (w : World) (hb : truthy w.nangoBaseUrl = true)
    (hs : truthy w.nangoSecretKey = true) :
    (authenticate w).2 = [RemoteCall.vaultFetch] ∨
      (authenticate w).2 = [RemoteCall.vaultFetch, RemoteCall.tokenRefresh] := by
  unfold authenticate get_connection_credentials
  rw [if_neg (by simp [hb, hs])]
  cases hv : w.vaultResult with
  | error f => simp
  | ok resp =>
    simp only
    split
    · split
      · cases hr : w.refreshResult <;> simp
      · simp
    · simp

/-- When the vault configuration is present, `authenticate` performs the
vault fetch. -/
lemma authenticate_trace_vault (w : World) (hb : truthy w.nangoBaseUrl = true)
    (hs : truthy w.nangoSecretKey = true) :
    RemoteCall.vaultFetch ∈ (authenticate w).2 := by
  rcases authenticate_trace_vault_cases w hb hs with h | h <;> rw [h] <;> simp

/-- With an empty summary, `create_meet_event` returns `none` and its trace
is exactly the trace of the authentication step: the `ValueError` of line
215 fires after the authentication of line 212 and before any insert. -/
lemma create_meet_event_empty_summary_eq (w : World) (sdt edt desc : String)
    (att : Option (List String)) (tz cid : String) :
    create_meet_event w "" sdt edt desc att tz cid = (none, (authenticate w).2) := by
  unfold create_meet_event
  rcases h : authenticate w with ⟨res, tr⟩
  cases res <;> simp [h]

/-- C1, counterexample: in a world where the vault configuration is present
and authentication succeeds, calling `create_meet_event` with an empty
summary does return the failure signal `none`, but its remote-call trace
contains the vault credential fetch — the claimed "neither the vault
credential fetch nor any calendar-provider call is performed" is false,
because `main.py` authenticates (line 212) before validating the summary
(line 214). -/
theorem create_meet_event_empty_summary_fetches_vault :
    (create_meet_event okWorld "" "2024-12-25T10:00:00" "2024-12-25T11:00:00"
        "" none "UTC" "primary").1 = none
    ∧ RemoteCall.vaultFetch ∈ (create_meet_event okWorld "" "2024-12-25T10:00:00"
        "2024-12-25T11:00:00" "" none "UTC" "primary").2 := by
  decide

/-- C1 (amended): for every call to `create_meet_event` with an empty
summary, the operation returns the failure signal `none` and performs no
calendar-provider call; the vault credential fetch, however, IS performed
(whenever the vault configuration is present) because authentication
precedes the empty-summary validation. -/
theorem create_meet_event_empty_summary_behaviour
    (w : World) (summary sdt edt desc : String) (att : Option (List String))
    (tz cid : String) (hs : summary = "") :
    (create_meet_event w summary sdt edt desc att tz cid).1 = none
    ∧ RemoteCall.eventInsert ∉ (create_meet_event w summary sdt edt desc att tz cid).2
    ∧ (truthy w.nangoBaseUrl = true → truthy w.nangoSecretKey = true →
        RemoteCall.vaultFetch ∈ (create_meet_event w summary sdt edt desc att tz cid).2) := by
  subst hs
  rw [create_meet_event_empty_summary_eq]
  refine ⟨rfl, ?_, ?_⟩
  · intro hmem
    rcases authenticate_trace_sub w _ hmem with h | h <;> simp at h
  · intro hb hsk
    exact authenticate_trace_vault w hb hsk

/-- Witness for the amended theorem of C1 at a concrete world and arguments. -/
theorem create_meet_event_empty_summary_behaviour_witness :
    (create_meet_event okWorld "" "2024-12-25T10:00:00" "2024-12-25T11:00:00"
        "" none "UTC" "work").1 = none
    ∧ RemoteCall.eventInsert ∉ (create_meet_event okWorld "" "2024-12-25T10:00:00"
        "2024-12-25T11:00:00" "" none "UTC" "work").2
    ∧ (truthy okWorld.nangoBaseUrl = true → truthy okWorld.nangoSecretKey = true →
        RemoteCall.vaultFetch ∈ (create_meet_event okWorld "" "2024-12-25T10:00:00"
          "2024-12-25T11:00:00" "" none "UTC" "work").2) :=
  create_meet_event_empty_summary_behaviour okWorld "" "2024-12-25T10:00:00"
    "2024-12-25T11:00:00" "" none "UTC" "work" rfl

/-- Every failure envelope of `cancel_calendar_event` has `success:false`,
a populated `error` kind, the requested `event_id`, and no `calendar_id`. -/
lemma cancel_fail_envelope_spec (eid : String) (f : Fault) :
    (cancel_fail_envelope eid f).success = false
    ∧ (cancel_fail_envelope eid f).error.isSome = true
    ∧ (cancel_fail_envelope eid f).event_id = eid
    ∧ (cancel_fail_envelope eid f).calendar_id = none := by
  cases f with
  | httpError st msg =>
    simp only [cancel_fail_envelope]
    split_ifs <;> simp
  | exc msg => simp [cancel_fail_envelope]

/-- Shape of every `cancel_calendar_event` result: the `event_id` is always
echoed; a success carries the `calendar_id`; a failure carries an `error`
kind and no `calendar_id`. -/
lemma cancel_envelope_shape (w : World) (cid eid : String) :
    ((cancel_calendar_event w cid eid).1.event_id = eid)
    ∧ ((cancel_calendar_event w cid eid).1.success = true →
        (cancel_calendar_event w cid eid).1.calendar_id = some cid)
    ∧ ((cancel_calendar_event w cid eid).1.success = false →
        (cancel_calendar_event w cid eid).1.error.isSome = true ∧
          (cancel_calendar_event w cid eid).1.calendar_id = none) := by
  unfold cancel_calendar_event
  rcases h : authenticate w with ⟨res, tr⟩
  cases res with
  | error f => simp [h, cancel_fail_envelope_spec eid f]
  | ok u =>
    cases u
    cases hd : w.deleteResult with
    | ok v => simp [h, hd]
    | error f => simp [h, hd, cancel_fail_envelope_spec eid f]

/-- The JSON rendering of a cancel envelope always carries `success` and
`message` fields, and carries an `error` field when the envelope does. -/
lemma cancel_toJ_fields (r : CancelEnvelope) :
    r.toJ.hasField "success" = true
    ∧ r.toJ.hasField "message" = true
    ∧ (r.error.isSome = true → r.toJ.hasField "error" = true) := by
  rcases r with ⟨s, m, eid, cido, erro⟩
  cases erro <;> cases cido <;> simp [CancelEnvelope.toJ, J.hasField]

/-- C2: for every fault propagated to a tool by the Broker or Client
(`get_all_calendars` is the operation that re-raises: provider
`RemoteError`s and auth faults both surface there), the tool converts it
into a `{success:false, error, message}` JSON envelope; and the
`cancel_calendar_event` tool — whose wrapped client never raises — always
returns an envelope with `success` and `message` fields, an `error` field
accompanying every `success:false`.  Both tools are total Lean functions
into `J`: no exception crosses the tool boundary. -/
theorem tool_boundary_uniform_failure_envelope (w : World) (cid eid : String)
    (f : Fault) (hf : (get_all_calendars w).1 = .error f) :
    get_all_calendars_tool w =
      J.obj [("success", .bool false), ("error", .str f.toMessage),
             ("message", .str "Failed to retrieve calendars")]
    ∧ (get_all_calendars_tool w).lookupField "success" = some (.bool false)
    ∧ (get_all_calendars_tool w).hasField "error" = true
    ∧ (get_all_calendars_tool w).hasField "message" = true
    ∧ (cancel_calendar_event_tool w cid eid).hasField "success" = true
    ∧ (cancel_calendar_event_tool w cid eid).hasField "message" = true
    ∧ ((cancel_calendar_event w cid eid).1.success = false →
        (cancel_calendar_event_tool w cid eid).hasField "error" = true) := by
  have h1 : get_all_calendars_tool w =
      J.obj [("success", .bool false), ("error", .str f.toMessage),
             ("message", .str "Failed to retrieve calendars")] := by
    simp [get_all_calendars_tool, hf]
  have h2 := cancel_toJ_fields (cancel_calendar_event w cid eid).1
  have h3 := cancel_envelope_shape w cid eid
  refine ⟨h1, ?_, ?_, ?_, h2.1, h2.2.1, ?_⟩
  · rw [h1]; simp [J.lookupField]
  · rw [h1]; simp [J.hasField]
  · rw [h1]; simp [J.hasField]
  · intro hfail
    exact h2.2.2 (h3.2.2 hfail).1

/-- Witness for C2 at a world with no vault configuration: the Broker
`ValueError` propagates out of the client and both tools wrap it. -/
theorem tool_boundary_uniform_failure_envelope_witness :
    get_all_calendars_tool noConfigWorld =
      J.obj [("success", .bool false),
             ("error", .str (Fault.exc
               "NANGO_NANGO_BASE_URL and NANGO_NANGO_SECRET_KEY must be set").toMessage),
             ("message", .str "Failed to retrieve calendars")]
    ∧ (get_all_calendars_tool noConfigWorld).lookupField "success" = some (.bool false)
    ∧ (get_all_calendars_tool noConfigWorld).hasField "error" = true
    ∧ (get_all_calendars_tool noConfigWorld).hasField "message" = true
    ∧ (cancel_calendar_event_tool noConfigWorld "cal-7" "evt-7").hasField "success" = true
    ∧ (cancel_calendar_event_tool noConfigWorld "cal-7" "evt-7").hasField "message" = true
    ∧ ((cancel_calendar_event noConfigWorld "cal-7" "evt-7").1.success = false →
        (cancel_calendar_event_tool noConfigWorld "cal-7" "evt-7").hasField "error" = true) :=
  tool_boundary_uniform_failure_envelope noConfigWorld "cal-7" "evt-7"
    (.exc "NANGO_NANGO_BASE_URL and NANGO_NANGO_SECRET_KEY must be set") rfl

/-- C3, counterexample: a remote 404 on delete does yield a non-raised
`success:false` envelope with error kind `event_not_found` — but that
envelope does NOT carry `calendar_id` (only the success branch of
`cancel_calendar_event`, `main.py` 273-278, includes it), so the claimed
shape `{success, message, event_id, calendar_id, error?}` is false for
failures. -/
theorem cancel_404_envelope_lacks_calendar_id :
    (cancel_calendar_event
        { okWorld with deleteResult := .error (.httpError (some 404) "404 event not found") }
        "cal-1" "evt-1").1.success = false
    ∧ (cancel_calendar_event
        { okWorld with deleteResult := .error (.httpError (some 404) "404 event not found") }
        "cal-1" "evt-1").1.error = some "event_not_found"
    ∧ (cancel_calendar_event
        { okWorld with deleteResult := .error (.httpError (some 404) "404 event not found") }
        "cal-1" "evt-1").1.event_id = "evt-1"
    ∧ (cancel_calendar_event
        { okWorld with deleteResult := .error (.httpError (some 404) "404 event not found") }
        "cal-1" "evt-1").1.calendar_id = none := by
  decide

/-- C3 (amended): a remotely failing `cancelEvent` yields a non-raised
`success:false` envelope whose error kind is `event_not_found` for 404,
`permission_denied` for 403 and `http_error` for any other status; every
result echoes `event_id`, but only SUCCESS results carry `calendar_id` —
failure envelopes have the shape `{success, message, error, event_id}`
without `calendar_id`. -/
theorem cancel_event_error_kinds (w : World) (cid eid : String) (st : Nat)
    (msg : String) (hauth : (authenticate w).1 = .ok ())
    (hdel : w.deleteResult = .error (.httpError (some st) msg)) :
    (cancel_calendar_event w cid eid).1.success = false
    ∧ (cancel_calendar_event w cid eid).1.error =
        some (if st = 404 then "event_not_found"
              else if st = 403 then "permission_denied" else "http_error")
    ∧ (cancel_calendar_event w cid eid).1.event_id = eid
    ∧ (cancel_calendar_event w cid eid).1.calendar_id = none
    ∧ (∀ w' : World, (cancel_calendar_event w' cid eid).1.event_id = eid
        ∧ ((cancel_calendar_event w' cid eid).1.success = true →
            (cancel_calendar_event w' cid eid).1.calendar_id = some cid)) := by
  have hmain : (cancel_calendar_event w cid eid).1 =
      cancel_fail_envelope eid (.httpError (some st) msg) := by
    unfold cancel_calendar_event
    rcases hA : authenticate w with ⟨res, tr⟩
    rw [hA] at hauth
    simp only at hauth
    subst hauth
    simp [hA, hdel]
  have herr : (cancel_fail_envelope eid (.httpError (some st) msg)).error =
      some (if st = 404 then "event_not_found"
            else if st = 403 then "permission_denied" else "http_error") := by
    simp only [cancel_fail_envelope]
    split_ifs <;> simp_all
  exact ⟨by rw [hmain]; exact (cancel_fail_envelope_spec eid _).1,
         by rw [hmain]; exact herr,
         by rw [hmain]; exact (cancel_fail_envelope_spec eid _).2.2.1,
         by rw [hmain]; exact (cancel_fail_envelope_spec eid _).2.2.2,
         fun w' => ⟨(cancel_envelope_shape w' cid eid).1,
                    (cancel_envelope_shape w' cid eid).2.1⟩⟩

/-- Witness for the amended theorem of C3 at a concrete 403 delete failure. -/
theorem cancel_event_error_kinds_witness :
    (cancel_calendar_event
        { okWorld with deleteResult := .error (.httpError (some 403) "403 forbidden") }
        "cal-2" "evt-2").1.success = false
    ∧ (cancel_calendar_event
        { okWorld with deleteResult := .error (.httpError (some 403) "403 forbidden") }
        "cal-2" "evt-2").1.error =
        some (if 403 = 404 then "event_not_found"
              else if 403 = 403 then "permission_denied" else "http_error")
    ∧ (cancel_calendar_event
        { okWorld with deleteResult := .error (.httpError (some 403) "403 forbidden") }
        "cal-2" "evt-2").1.event_id = "evt-2"
    ∧ (cancel_calendar_event
        { okWorld with deleteResult := .error (.httpError (some 403) "403 forbidden") }
        "cal-2" "evt-2").1.calendar_id = none
    ∧ (∀ w' : World, (cancel_calendar_event w' "cal-2" "evt-2").1.event_id = "evt-2"
        ∧ ((cancel_calendar_event w' "cal-2" "evt-2").1.success = true →
            (cancel_calendar_event w' "cal-2" "evt-2").1.calendar_id = some "cal-2")) :=
  cancel_event_error_kinds
    { okWorld with deleteResult := .error (.httpError (some 403) "403 forbidden") }
    "cal-2" "evt-2" 403 "403 forbidden" rfl rfl

/-- C4, counterexample: with the connection and integration identifiers
present but the vault base URL absent, all module-level startup checks
(`main.py` 38-41) pass and the process starts serving tools; the missing
vault configuration is only detected inside
`get_connection_credentials` (`main.py` 52-53), i.e. at tool-call time —
so `process fails fast at startup if ANY of the four is absent` is
false. -/
theorem startup_passes_without_vault_config :
    startup_check (some "conn-1") (some "integ-1") = .started
    ∧ (get_connection_credentials
        { nangoBaseUrl := none, nangoSecretKey := some "sk-123" }).1 =
        .error (.exc "NANGO_NANGO_BASE_URL and NANGO_NANGO_SECRET_KEY must be set") :=
  ⟨rfl, rfl⟩

/-- C4 (amended): the process fails fast at startup exactly when the
connection identifier or the integration identifier is absent/empty; an
absent vault base URL or vault secret key does NOT stop startup — it makes
every credential fetch raise (before performing any remote call), which
each tool then converts to a failure envelope. -/
theorem startup_checks_only_nango_ids (conn integ : Option String) (w : World)
    (hmiss : truthy w.nangoBaseUrl = false ∨ truthy w.nangoSecretKey = false) :
    (startup_check conn integ = .started ↔
      (truthy conn = true ∧ truthy integ = true))
    ∧ (get_connection_credentials w).1 =
        .error (.exc "NANGO_NANGO_BASE_URL and NANGO_NANGO_SECRET_KEY must be set")
    ∧ (get_connection_credentials w).2 = [] := by
  have hcfg : (!truthy w.nangoBaseUrl || !truthy w.nangoSecretKey) = true := by
    rcases hmiss with h | h <;> simp [h]
  refine ⟨?_, ?_, ?_⟩
  · unfold startup_check
    cases hc : truthy conn <;> cases hi : truthy integ <;> simp [hc, hi]
  · unfold get_connection_credentials
    rw [if_pos hcfg]
  · unfold get_connection_credentials
    rw [if_pos hcfg]

/-- Witness for the amended theorem of C4: both identifiers present, no vault
base URL. -/
theorem startup_checks_only_nango_ids_witness :
    (startup_check (some "conn-2") (some "integ-2") = .started ↔
      (truthy (some "conn-2") = true ∧ truthy (some "integ-2") = true))
    ∧ (get_connection_credentials noConfigWorld).1 =
        .error (.exc "NANGO_NANGO_BASE_URL and NANGO_NANGO_SECRET_KEY must be set")
    ∧ (get_connection_credentials noConfigWorld).2 = [] :=
  startup_checks_only_nango_ids (some "conn-2") (some "integ-2") noConfigWorld
    (Or.inl rfl)

/-- C5, counterexample: at the fixed instant 2024-12-25 15:30:45.123456,
the computed `time_max` is `23:59:59.999999` of that day (microsecond
999999, `main.py` 450), not the claimed `23:59:59.999`. -/
theorem today_time_max_is_999999_microseconds :
    get_today_events_time_max ⟨2024, 12, 25, 15, 30, 45, 123456⟩ =
      "2024-12-25T23:59:59.999999Z"
    ∧ get_today_events_time_max ⟨2024, 12, 25, 15, 30, 45, 123456⟩ ≠
      "2024-12-25T23:59:59.999Z"
    ∧ get_today_events_time_min ⟨2024, 12, 25, 15, 30, 45, 123456⟩ =
      "2024-12-25T00:00:00Z" := by
  refine ⟨by decide, by decide, by decide⟩

/-- C5 (amended): for every invocation instant, `get_today_events` bounds
the 24-hour window of that calendar day — `time_min` is that day at
midnight (00:00:00.000000) and `time_max` is 23:59:59.999999 of the same
day — and delegates to `get_calendar_events` with `max_results = 50`. -/
theorem get_today_events_window (w : World) (now : PyDateTime) (cid : String) :
    (todayTimeMin now).year = now.year ∧ (todayTimeMin now).month = now.month
    ∧ (todayTimeMin now).day = now.day ∧ (todayTimeMin now).hour = 0
    ∧ (todayTimeMin now).minute = 0 ∧ (todayTimeMin now).second = 0
    ∧ (todayTimeMin now).microsecond = 0
    ∧ (todayTimeMax now).year = now.year ∧ (todayTimeMax now).month = now.month
    ∧ (todayTimeMax now).day = now.day ∧ (todayTimeMax now).hour = 23
    ∧ (todayTimeMax now).minute = 59 ∧ (todayTimeMax now).second = 59
    ∧ (todayTimeMax now).microsecond = 999999
    ∧ get_today_events w now cid =
        get_calendar_events w cid (some ((todayTimeMin now).isoformat ++ "Z"))
          (some ((todayTimeMax now).isoformat ++ "Z")) 50 := by
  and_intros <;> rfl

/-- Both failure branches of `get_calendar_events` echo the requested
calendar id and set an error kind. -/
lemma events_fail_envelope_spec (cid : String) (f : Fault) :
    (events_fail_envelope cid f).calendar_id = cid
    ∧ (events_fail_envelope cid f).success = false
    ∧ (events_fail_envelope cid f).error.isSome = true := by
  cases f with
  | httpError st msg => cases st <;> simp [events_fail_envelope]
  | exc msg => simp [events_fail_envelope]

/-- When authentication succeeds and the provider call raises `f`,
`get_calendar_events` returns the corresponding failure envelope. -/
lemma get_calendar_events_fault (w : World) (cid : String)
    (tmin tmax : Option String) (mr : Nat) (f : Fault)
    (hauth : (authenticate w).1 = .ok ())
    (he : w.eventsListResult = .error f) :
    (get_calendar_events w cid tmin tmax mr).1 = events_fail_envelope cid f := by
  unfold get_calendar_events
  rcases hA : authenticate w with ⟨res, tr⟩
  rw [hA] at hauth
  simp only at hauth
  subst hauth
  simp [hA, he]

/-- When authentication succeeds and the provider returns `items`,
`get_calendar_events` returns the success envelope over the formatted
items. -/
lemma get_calendar_events_ok (w : World) (cid : String)
    (tmin tmax : Option String) (mr : Nat) (items : List EventJson)
    (hauth : (authenticate w).1 = .ok ())
    (hitems : w.eventsListResult = .ok items) :
    (get_calendar_events w cid tmin tmax mr).1 =
      { success := true
        events := some (items.map (formatEvent cid))
        total_events := some items.length
        calendar_id := cid
        message := s!"Retrieved {items.length} events successfully" } := by
  unfold get_calendar_events
  rcases hA : authenticate w with ⟨res, tr⟩
  rw [hA] at hauth
  simp only at hauth
  subst hauth
  simp [hA, hitems]

/-- C6: when the provider call inside `listEvents` fails, the operation
still RETURNS an envelope (the embedded `get_calendar_events` is a total
function — nothing is raised to the caller), embedding error kind
`http_error_<status>` for a provider HTTP error and `unexpected_error` for
any other fault. -/
theorem list_events_embeds_remote_failure (w : World) (cid : String)
    (tmin tmax : Option String) (mr : Nat)
    (hauth : (authenticate w).1 = .ok ()) :
    (∀ st msg, w.eventsListResult = .error (.httpError (some st) msg) →
      (get_calendar_events w cid tmin tmax mr).1.success = false
      ∧ (get_calendar_events w cid tmin tmax mr).1.error = some s!"http_error_{st}")
    ∧ (∀ msg, w.eventsListResult = .error (.exc msg) →
      (get_calendar_events w cid tmin tmax mr).1.success = false
      ∧ (get_calendar_events w cid tmin tmax mr).1.error = some "unexpected_error") := by
  constructor
  · intro st msg he
    rw [get_calendar_events_fault w cid tmin tmax mr _ hauth he]
    simp [events_fail_envelope]
  · intro msg he
    rw [get_calendar_events_fault w cid tmin tmax mr _ hauth he]
    simp [events_fail_envelope]

/-- Witness for C6 at a concrete provider 500 and a concrete unexpected
fault. -/
theorem list_events_embeds_remote_failure_witness :
    ((get_calendar_events events500World "primary" none none 10).1.success = false
      ∧ (get_calendar_events events500World "primary" none none 10).1.error =
          some "http_error_500")
    ∧ ((get_calendar_events eventsExcWorld "primary" none none 10).1.success = false
      ∧ (get_calendar_events eventsExcWorld "primary" none none 10).1.error =
          some "unexpected_error") :=
  ⟨(list_events_embeds_remote_failure events500World "primary" none none 10 rfl).1
      500 "backend error" rfl,
   (list_events_embeds_remote_failure eventsExcWorld "primary" none none 10 rfl).2
      "boom" rfl⟩

/-- C9: `listEvents` with `maxResults = 0` and a provider honoring the cap
(returning at most `0` items) yields the `success:true` envelope with an
empty events list — never an error. -/
theorem list_events_max_results_zero (w : World) (cid : String)
    (tmin tmax : Option String) (items : List EventJson)
    (hauth : (authenticate w).1 = .ok ())
    (hitems : w.eventsListResult = .ok items)
    (hcap : items.length ≤ 0) :
    (get_calendar_events w cid tmin tmax 0).1 =
      { success := true
        events := some []
        total_events := some 0
        calendar_id := cid
        message := "Retrieved 0 events successfully" } := by
  have hnil : items = [] := List.length_eq_zero.mp (Nat.le_zero.mp hcap)
  subst hnil
  rw [get_calendar_events_ok w cid tmin tmax 0 [] hauth hitems]
  rfl

/-- Witness for C9 at a concrete world whose provider returns no items. -/
theorem list_events_max_results_zero_witness :
    (get_calendar_events okWorld "primary" none none 0).1 =
      { success := true
        events := some []
        total_events := some 0
        calendar_id := "primary"
        message := "Retrieved 0 events successfully" } :=
  list_events_max_results_zero okWorld "primary" none none [] rfl rfl (Nat.le_refl 0)

/-- C10: every `listEvents` envelope — success or failure — echoes the
requested `calendar_id`; on success `total_events` is the length of the
events list, the events are the provider items mapped one-to-one (in
order) through `formatEvent`, and a missing title becomes `No Title`. -/
theorem list_events_envelope_invariants (w : World) (cid : String)
    (tmin tmax : Option String) (mr : Nat) :
    (get_calendar_events w cid tmin tmax mr).1.calendar_id = cid
    ∧ (∀ items, (authenticate w).1 = .ok () → w.eventsListResult = .ok items →
        (get_calendar_events w cid tmin tmax mr).1.success = true
        ∧ (get_calendar_events w cid tmin tmax mr).1.events =
            some (items.map (formatEvent cid))
        ∧ (get_calendar_events w cid tmin tmax mr).1.total_events = some items.length
        ∧ ∀ e : EventJson, (formatEvent cid e).summary = e.summary.getD "No Title"
            ∧ (formatEvent cid e).calendar_id = cid) := by
  constructor
  · unfold get_calendar_events
    rcases hA : authenticate w with ⟨res, tr⟩
    cases res with
    | error f => simp [hA, events_fail_envelope_spec cid f]
    | ok u =>
      cases u
      cases he : w.eventsListResult with
      | error f => simp [hA, he, events_fail_envelope_spec cid f]
      | ok items => simp [hA, he]
  · intro items hauth hitems
    rw [get_calendar_events_ok w cid tmin tmax mr items hauth hitems]
    exact ⟨rfl, rfl, rfl, fun e => ⟨rfl, rfl⟩⟩

/-- Witness for C10 at a world returning two events, the first untitled. -/
theorem list_events_envelope_invariants_witness :
    (get_calendar_events twoEventsWorld "primary" none none 10).1.calendar_id = "primary"
    ∧ (get_calendar_events twoEventsWorld "primary" none none 10).1.success = true
    ∧ (get_calendar_events twoEventsWorld "primary" none none 10).1.events =
        some (twoEvents.map (formatEvent "primary"))
    ∧ (get_calendar_events twoEventsWorld "primary" none none 10).1.total_events =
        some twoEvents.length
    ∧ (formatEvent "primary" { id := some "e1" }).summary = "No Title" :=
  ⟨(list_events_envelope_invariants twoEventsWorld "primary" none none 10).1,
   ((list_events_envelope_invariants twoEventsWorld "primary" none none 10).2
      twoEvents rfl rfl).1,
   ((list_events_envelope_invariants twoEventsWorld "primary" none none 10).2
      twoEvents rfl rfl).2.1,
   ((list_events_envelope_invariants twoEventsWorld "primary" none none 10).2
      twoEvents rfl rfl).2.2.1,
   (((list_events_envelope_invariants twoEventsWorld "primary" none none 10).2
      twoEvents rfl rfl).2.2.2 { id := some "e1" }).1⟩

/-- C7: when the constructed credential is already expired
(`main.py` 87-92): with a (truthy) refresh token, the direct refresh
exchange runs right after the vault fetch and before anything else — the
trace is exactly `[vaultFetch, tokenRefresh]`, and a successful exchange
yields a usable service; with no refresh token, authentication fails with
the unrefreshable-credential error and the trace is `[vaultFetch]` — no
calendar call is ever reached. -/
theorem resolve_expired_credential (w : World) (resp : NangoResponse)
    (hb : truthy w.nangoBaseUrl = true) (hsk : truthy w.nangoSecretKey = true)
    (hv : w.vaultResult = .ok resp) (hexp : w.credsExpired = true) :
    (truthy (resp.credentials.getD {}).refresh_token = true →
      (authenticate w).2 = [RemoteCall.vaultFetch, RemoteCall.tokenRefresh]
      ∧ (w.refreshResult = .ok () → (authenticate w).1 = .ok ()))
    ∧ (truthy (resp.credentials.getD {}).refresh_token = false →
      (authenticate w).1 =
        .error (.exc "Invalid credentials and no refresh token available")
      ∧ (authenticate w).2 = [RemoteCall.vaultFetch]) := by
  constructor
  · intro hr
    unfold authenticate get_connection_credentials
    rw [if_neg (by simp [hb, hsk])]
    simp only [hv]
    simp only [Creds.valid, hexp, hr]
    cases hrr : w.refreshResult <;> simp [hrr]
  · intro hr
    unfold authenticate get_connection_credentials
    rw [if_neg (by simp [hb, hsk])]
    simp only [hv]
    simp only [Creds.valid, hexp, hr]
    simp

/-- Witness for C7 at the two concrete expired-credential worlds. -/
theorem resolve_expired_credential_witness :
    ((authenticate expiredRefreshableWorld).2 =
        [RemoteCall.vaultFetch, RemoteCall.tokenRefresh]
      ∧ (authenticate expiredRefreshableWorld).1 = .ok ())
    ∧ ((authenticate expiredUnrefreshableWorld).1 =
        .error (.exc "Invalid credentials and no refresh token available")
      ∧ (authenticate expiredUnrefreshableWorld).2 = [RemoteCall.vaultFetch]) :=
  ⟨⟨((resolve_expired_credential expiredRefreshableWorld
        { credentials := some refreshableCreds } rfl rfl rfl rfl).1 rfl).1,
    ((resolve_expired_credential expiredRefreshableWorld
        { credentials := some refreshableCreds } rfl rfl rfl rfl).1 rfl).2 rfl⟩,
   (resolve_expired_credential expiredUnrefreshableWorld
        { credentials := some { access_token := some "tok" } } rfl rfl rfl rfl).2 rfl⟩

/-- One unfolding step of the pagination loop on a successful page. -/
lemma get_all_calendars_loop_cons_ok (p : CalendarPage)
    (rest : List (Except Fault CalendarPage)) :
    get_all_calendars_loop (Except.ok p :: rest) =
      if truthy p.nextPageToken then
        ((get_all_calendars_loop rest).1.map (fun more => p.items ++ more),
         RemoteCall.calendarListPage :: (get_all_calendars_loop rest).2)
      else (.ok p.items, [RemoteCall.calendarListPage]) := rfl

/-- The pagination loop over well-formed pages (every page but the last
carries a truthy token, the last carries none) returns the concatenation
of the items of all pages in page order and issues exactly one provider request
per page. -/
lemma get_all_calendars_loop_concat (pages : List CalendarPage)
    (hne : pages ≠ [])
    (hmid : ∀ p ∈ pages.dropLast, truthy p.nextPageToken = true)
    (hlast : ∀ p, pages.getLast? = some p → truthy p.nextPageToken = false) :
    get_all_calendars_loop (pages.map Except.ok) =
      (.ok (pages.map CalendarPage.items).flatten,
       List.replicate pages.length RemoteCall.calendarListPage) := by
  induction pages with
  | nil => simp at hne
  | cons p rest ih =>
    cases rest with
    | nil =>
      have hp : truthy p.nextPageToken = false := hlast p (by simp)
      simp [get_all_calendars_loop_cons_ok, hp, get_all_calendars_loop]
    | cons q rest2 =>
      have hp : truthy p.nextPageToken = true := by
        apply hmid p
        rw [List.dropLast_cons₂]
        exact List.mem_cons_self p _
      have ih2 := ih (by simp)
        (fun r hr => hmid r (by rw [List.dropLast_cons₂]; exact List.mem_cons_of_mem p hr))
        (fun r hr => hlast r (by rw [List.getLast?_cons_cons]; exact hr))
      rw [List.map_cons, get_all_calendars_loop_cons_ok, if_pos hp, ih2]
      simp [List.replicate_succ, Except.map]

/-- Authentication never issues a calendar-list request. -/
lemma authenticate_no_list_page (w : World) :
    (authenticate w).2.count RemoteCall.calendarListPage = 0 := by
  rcases authenticate_trace_cases w with h | h | h <;> rw [h] <;> decide

/-- C8: over any well-formed page sequence (all but the last page carry a
continuation token, the last does not), `get_all_calendars` returns
exactly the concatenation of the items of all pages in page order, and issues
exactly one provider page-request per page: it requests a next page
precisely when the previous response carried a continuation token, and
terminates at the token-less page. -/
theorem list_calendars_concatenates_pages (w : World) (pages : List CalendarPage)
    (hw : w.calendarPages = pages.map Except.ok)
    (hauth : (authenticate w).1 = .ok ())
    (hne : pages ≠ [])
    (hmid : ∀ p ∈ pages.dropLast, truthy p.nextPageToken = true)
    (hlast : ∀ p, pages.getLast? = some p → truthy p.nextPageToken = false) :
    (get_all_calendars w).1 = .ok (pages.map CalendarPage.items).flatten
    ∧ (get_all_calendars w).2.count RemoteCall.calendarListPage = pages.length := by
  have hloop := get_all_calendars_loop_concat pages hne hmid hlast
  have hzero := authenticate_no_list_page w
  unfold get_all_calendars
  rcases hA : authenticate w with ⟨res, tr⟩
  rw [hA] at hauth
  simp only at hauth
  subst hauth
  rw [hA] at hzero
  simp only at hzero
  constructor
  · simp [hA, hw, hloop]
  · simp [hA, hw, hloop, List.count_append, hzero, List.count_replicate]

/-- Witness for C8 at the three simulated pages of `pagesWorld`. -/
theorem list_calendars_concatenates_pages_witness :
    (get_all_calendars pagesWorld).1 = .ok (pages3.map CalendarPage.items).flatten
    ∧ (get_all_calendars pagesWorld).2.count RemoteCall.calendarListPage =
        pages3.length :=
  list_calendars_concatenates_pages pagesWorld pages3 rfl rfl (by decide)
    (by decide) (by decide)

end GCal
